import Mathlib

/-!
# Verification of the proxytheus request-authorization layer

A shallow embedding of the proxy's source (`src/main.rs`, `src/routes.rs`,
`src/auth/mod.rs`, `src/auth/oauth.rs`, `src/auth/tls.rs`) together with
theorems settling the specification claims about it.

Modelling conventions:
* `OffsetDateTime` instants are modelled as `Int` (an absolute timestamp);
  the current time is passed in explicitly wherever the source calls
  `OffsetDateTime::now_utc()`.
* A Rust `Result` propagated with `?` is an `Outcome.error`; a Rust panic
  (`unwrap()`/`expect()` on a `None`/`Err`) is `Outcome.panic`.
* Network effects (the OAuth token exchange, the upstream send, the
  response-body read) are abstracted as explicit oracle arguments holding
  the outcome the network would produce; the functions under verification
  record how many times each oracle is consumed.
* Header maps are association lists of name/value strings with names kept
  in the lowercased normal form that `http::HeaderName` imposes.
-/

set_option autoImplicit false

namespace Proxytheus

/-- Outcome of a Rust computation that can either return `Ok`, propagate an
`Err` with `?`, or panic (`unwrap()` on `None`/`Err`). -/
inductive Outcome (ε : Type) (α : Type) where
  | panic : Outcome ε α
  | error : ε → Outcome ε α
  | ok : α → Outcome ε α
  deriving DecidableEq

/-- Model of an `anyhow::Error` value: only its message is observable. -/
structure AnyhowError where
  msg : String
  deriving DecidableEq

/-! ## String helpers mirrored from Rust's standard library

The source calls `str::split('/')` (in `routes.rs`) and
`str::replace("{}", &token)` (in `oauth.rs`).  Both are re-implemented here
structurally so that concrete instances evaluate inside the kernel. -/

/-- Rust's `str::split(sep)` on a character separator, on the underlying
character list: splitting the empty string yields `[[]]`, and every
occurrence of the separator starts a new (possibly empty) segment. -/
def splitChar (sep : Char) : List Char → List (List Char)
  | [] => [[]]
  | c :: rest =>
    if c = sep then [] :: splitChar sep rest
    else
      match splitChar sep rest with
      | [] => [[c]]
      | p :: ps => (c :: p) :: ps

/-- Rust's `str::split(sep)` collected into a `Vec<&str>`, as in
`routes.rs` line 49. -/
def rustSplit (s : String) (sep : Char) : List String :=
  (splitChar sep s.data).map (fun l => ⟨l⟩)

/-- Rust's `str::replace("{}", tok)` specialised to the pattern `"{}"`,
the only pattern the source ever uses (`oauth.rs` line 120): every
non-overlapping occurrence of `{}` is replaced by `tok`, scanning left to
right. -/
def substTemplate (tok : String) : List Char → List Char
  | '{' :: '}' :: rest => tok.data ++ substTemplate tok rest
  | c :: rest => c :: substTemplate tok rest
  | [] => []

/-- Model of `self.header_value.replace("{}", &token)` from `oauth.rs` line 120. -/
def renderHeaderValue (template tok : String) : String :=
  ⟨substTemplate tok template.data⟩

/-! ## HTTP header model (`http::HeaderName` / `http::HeaderValue`)

`HeaderName::from_bytes` accepts a non-empty sequence of token characters
(letters, digits, and `!#$%&'*+-.^_|~` plus the backquote, byte 96) and
normalises ASCII letters to lowercase.  `HeaderValue::from_str` accepts a
string each of whose bytes is horizontal tab or at least 32 and not 127;
every byte of a multi-byte UTF-8 character is at least 128 and hence
acceptable, so the check can be stated per character. -/

/-- A character `http::HeaderName` accepts. -/
def isValidHeaderNameChar (c : Char) : Bool :=
  c.isAlphanum || c ∈ ['!', '#', '$', '%', '&', '\'', '*', '+', '-', '.',
    '^', '_', '|', '~'] || c.toNat = 96

/-- Predicate for `http::HeaderName::from_bytes` succeeding on this string. -/
def isValidHeaderName (s : String) : Bool :=
  !s.data.isEmpty && s.data.all isValidHeaderNameChar

/-- A character every byte of whose UTF-8 encoding `http::HeaderValue`
accepts. -/
def isValidHeaderValueChar (c : Char) : Bool :=
  c = '\t' || (32 ≤ c.toNat && c.toNat ≠ 127)

/-- Predicate for `http::HeaderValue::from_str` succeeding on this string. -/
def isValidHeaderValue (s : String) : Bool :=
  s.data.all isValidHeaderValueChar

/-- The lowercase normal form `http::HeaderName` stores. -/
def lowerName (s : String) : String :=
  ⟨s.data.map Char.toLower⟩

/-- Model of `http::HeaderMap::insert`: any previously stored values under `name`
are removed and the single pair `(name, value)` is stored instead. -/
def headerInsert (hs : List (String × String)) (name value : String) :
    List (String × String) :=
  (name, value) :: hs.filter (fun p => p.1 ≠ name)

/-! ## `src/auth/oauth.rs` -/

/-- Model of `OAuthClientCredentialsOptions` (`oauth.rs` lines 14-25). -/
structure OAuthClientCredentialsOptions where
  client_id : String
  client_secret : String
  auth_url : String
  token_url : String
  audience : Option String
  header_name : String
  header_value : String
  deriving DecidableEq

/-- Model of `CachedToken` (`oauth.rs` lines 28-31): a bearer token together with
its absolute expiry instant. -/
structure CachedToken where
  token : String
  expires_at : Int
  deriving DecidableEq

/-- Model of `OAuthClientCredentialsState` (`oauth.rs` lines 33-47). -/
structure OAuthClientCredentialsState where
  client_id : String
  client_secret : String
  auth_url : String
  token_url : String
  audience : Option String
  header_name : String
  header_value : String
  token : Option CachedToken
  deriving DecidableEq

/-- Model of `OAuthClientCredentialsState::new` (`oauth.rs` lines 50-61). -/
def OAuthClientCredentialsState.new (options : OAuthClientCredentialsOptions) :
    OAuthClientCredentialsState :=
  { client_id := options.client_id
    client_secret := options.client_secret
    auth_url := options.auth_url
    token_url := options.token_url
    audience := options.audience
    header_name := options.header_name
    header_value := options.header_value
    token := none }

/-- The audience-parameter logic of `generate_token` (`oauth.rs` lines
72-76): the guard is literally `Some(self.audience.clone()) != None`,
which compares a value already wrapped in `Some` against `None` and is
therefore true for every audience; inside the branch
`self.audience.clone().unwrap()` panics when the audience is `None`.
Returns the extra parameters attached to the token request, or the
panic. -/
def generate_token_audience_param (audience : Option String) :
    Outcome AnyhowError (List (String × String)) :=
  if (some audience : Option (Option String)) ≠ none then
    match audience with
    | some a => .ok [("audience", a)]
    | none => .panic
  else .ok []

/-- The cache-update half of `token()` (`oauth.rs` lines 99-103): the
outcome of the network exchange performed by `generate_token` is the
`issued` oracle; on success the freshly issued token replaces the cached
one wholesale, on failure the state is returned unchanged.  The final
component counts how many issuance calls were made (always 1 here). -/
def issueAndCache (s : OAuthClientCredentialsState)
    (issued : Outcome AnyhowError CachedToken) :
    Outcome AnyhowError String × OAuthClientCredentialsState × Nat :=
  match issued with
  | .panic => (.panic, s, 1)
  | .error e => (.error e, s, 1)
  | .ok t => (.ok t.token, { s with token := some t }, 1)

/-- Model of `OAuthClientCredentialsState::token` (`oauth.rs` lines 93-105): if a
cached token exists and `expires_at > now` it is returned with no
issuance call; otherwise `generate_token` is called once (its network
outcome abstracted as `issued`) and its result cached.  Returns the token
result, the successor state, and the number of issuance calls. -/
def tokenStep (s : OAuthClientCredentialsState) (now : Int)
    (issued : Outcome AnyhowError CachedToken) :
    Outcome AnyhowError String × OAuthClientCredentialsState × Nat :=
  match s.token with
  | some c =>
    if c.expires_at > now then (.ok c.token, s, 0)
    else issueAndCache s issued
  | none => issueAndCache s issued

/-- Model of `oauth::authorize_request` (`oauth.rs` lines 112-124): obtain the
token via `token()`, then insert the configured header.  The header name
goes through `HeaderName::from_bytes(..).unwrap()` — a panic when the
name is invalid — and the value through `HeaderValue::from_str(..)?` — an
error when the substituted value is invalid.  Returns the resulting
request headers, the successor authorizer state, and the issuance-call
count. -/
def authorize_request_oauth (req : List (String × String))
    (s : OAuthClientCredentialsState) (now : Int)
    (issued : Outcome AnyhowError CachedToken) :
    Outcome AnyhowError (List (String × String)) ×
      OAuthClientCredentialsState × Nat :=
  match tokenStep s now issued with
  | (.panic, s1, n) => (.panic, s1, n)
  | (.error e, s1, n) => (.error e, s1, n)
  | (.ok tok, s1, n) =>
    if isValidHeaderName s.header_name then
      if isValidHeaderValue (renderHeaderValue s.header_value tok) then
        (.ok (headerInsert req (lowerName s.header_name)
          (renderHeaderValue s.header_value tok)), s1, n)
      else (.error ⟨"InvalidHeaderValue"⟩, s1, n)
    else (.panic, s1, n)

/-! ## `src/routes.rs` -/

/-- The error response status or mirrored upstream response a call to the
`metrics` handler produces, or the fact that it panicked. -/
inductive HttpOutcome where
  | status : Nat → HttpOutcome
  | response : Nat → String → HttpOutcome
  | panicked : HttpOutcome
  deriving DecidableEq

/-- The per-request network environment of one `metrics` handler call:
whether building the outbound request succeeds (`routes.rs` lines 63-72),
the outcome `authorize_request` produces under the lock (lines 75-81), and
the outcome of `http_client.execute` (lines 87-96) — on a received
response, the status together with the result of `response.bytes()`. -/
structure RequestEnv where
  buildOk : Bool
  authOutcome : Outcome AnyhowError Unit
  sendOutcome : Except AnyhowError (Nat × Except AnyhowError String)

/-- The `metrics` handler (`routes.rs` lines 34-97).  The first component
is the HTTP outcome; the second counts calls to `authorize_request` (each
made under the exclusive auth lock); the third counts upstream sends.
Mirrors the source: a first path segment other than `metrics` is 404
before anything else; a request-build error, an authorization error and a
send error each become status 500; `response.bytes().await.unwrap()`
panics when reading the response body fails; a panic inside
`authorize_request` propagates.  Composing the destination URL is part of
the build step. -/
def metricsHandler (path : String) (env : RequestEnv) :
    HttpOutcome × Nat × Nat :=
  let parts := rustSplit path '/'
  if parts.length < 1 ∨ parts.headD "" ≠ "metrics" then (.status 404, 0, 0)
  else if env.buildOk = false then (.status 500, 0, 0)
  else
    match env.authOutcome with
    | .panic => (.panicked, 1, 0)
    | .error _ => (.status 500, 1, 0)
    | .ok _ =>
      match env.sendOutcome with
      | .error _ => (.status 500, 1, 1)
      | .ok (_, .error _) => (.panicked, 1, 1)
      | .ok (st, .ok body) => (.response st body, 1, 1)

/-- An observable step of the `metrics` handler touching the shared auth
mechanism or the upstream. -/
inductive HandlerEvent where
  | lockAcquire : HandlerEvent
  | authorize : HandlerEvent
  | lockRelease : HandlerEvent
  | upstreamSend : HandlerEvent
  deriving DecidableEq

/-- The order of lock and network events of one `metrics` handler call,
read off `routes.rs` lines 75-96: `state.auth.lock().await` is acquired,
`authorize_request` runs entirely under it, the guard is dropped (line 84
on success, at scope exit on the error return of line 81), and only then
is the upstream send started.  A panic inside authorization ends the
trace. -/
def metricsEvents (path : String) (env : RequestEnv) : List HandlerEvent :=
  let parts := rustSplit path '/'
  if parts.length < 1 ∨ parts.headD "" ≠ "metrics" then []
  else if env.buildOk = false then []
  else
    match env.authOutcome with
    | .panic => [.lockAcquire, .authorize]
    | .error _ => [.lockAcquire, .authorize, .lockRelease]
    | .ok _ => [.lockAcquire, .authorize, .lockRelease, .upstreamSend]

/-- Serialized execution of the authorization sections of several
requests against one shared `OAuthClientCredentialsState`, as enforced by
the exclusive `Mutex` in `SharedState` (`routes.rs` lines 19-22 and
75-84): the critical sections run one after another, each on the state
the previous one left, with `times` the instants at which they run and
`issued` the outcome the token endpoint would produce for whoever calls
it.  Each request starts from its own fresh header map.  Returns the per-
request authorization results, the final shared state, and the total
number of issuance calls. -/
def runAuthorizations (s : OAuthClientCredentialsState) (times : List Int)
    (issued : Outcome AnyhowError CachedToken) :
    List (Outcome AnyhowError (List (String × String))) ×
      OAuthClientCredentialsState × Nat :=
  match times with
  | [] => ([], s, 0)
  | now :: rest =>
    let step := authorize_request_oauth [] s now issued
    let tail := runAuthorizations step.2.1 rest issued
    (step.1 :: tail.1, tail.2.1, step.2.2 + tail.2.2)

/-! ## `src/main.rs` -/

/-- The credential-bearing command-line arguments (`main.rs` lines
21-79).  `address`, `port` and `endpoint` play no part in
`determine_auth` and are omitted. -/
structure Args where
  client_id : Option String
  client_secret : Option String
  auth_url : Option String
  token_url : Option String
  audience : Option String
  header_name : String
  header_value : String
  cert : Option String
  cert_file : Option String
  key : Option String
  key_file : Option String
  deriving DecidableEq

/-- The result of `determine_auth` (`main.rs` lines 82-138): the chosen
`AuthMechanism`, or the `panic!("Invalid arguments")` of the final arm.
`tlsFiles` records the two file paths handed to
`TlsOptions::from_files`. -/
inductive AuthChoice where
  | mechNone : AuthChoice
  | oauth : OAuthClientCredentialsOptions → AuthChoice
  | tls : String → String → AuthChoice
  | tlsFiles : String → String → AuthChoice
  | panicked : AuthChoice
  deriving DecidableEq

/-- The pattern of the first `determine_auth` arm (`main.rs` lines
84-94): every credential-bearing option is `None`. -/
def noCredentialArgs (a : Args) : Bool :=
  a.client_id.isNone && a.client_secret.isNone && a.auth_url.isNone &&
  a.token_url.isNone && a.audience.isNone && a.cert.isNone &&
  a.cert_file.isNone && a.key.isNone && a.key_file.isNone

/-- The pattern of the OAuth arm (`main.rs` lines 99-107): all four of
client id, client secret, auth URL and token URL present. -/
def oauthArgs (a : Args) : Bool :=
  a.client_id.isSome && a.client_secret.isSome && a.auth_url.isSome &&
  a.token_url.isSome

/-- The pattern of the inline-TLS arm (`main.rs` lines 120-123). -/
def tlsArgs (a : Args) : Bool :=
  a.cert.isSome && a.key.isSome

/-- The pattern of the TLS-from-files arm (`main.rs` lines 128-131). -/
def tlsFileArgs (a : Args) : Bool :=
  a.cert_file.isSome && a.key_file.isSome

/-- Model of `determine_auth` (`main.rs` lines 82-138): the match arms are tried
in source order — all-options-absent, then OAuth, then inline TLS, then
TLS from files — and the wildcard arm panics. -/
def determine_auth (a : Args) : AuthChoice :=
  if noCredentialArgs a then .mechNone
  else
    match a.client_id, a.client_secret, a.auth_url, a.token_url with
    | some cid, some csec, some au, some tu =>
      .oauth
        { client_id := cid, client_secret := csec, auth_url := au,
          token_url := tu, audience := a.audience,
          header_name := a.header_name, header_value := a.header_value }
    | _, _, _, _ =>
      match a.cert, a.key with
      | some c, some k => .tls c k
      | _, _ =>
        match a.cert_file, a.key_file with
        | some cf, some kf => .tlsFiles cf kf
        | _, _ => .panicked

/-- The request methods distinguished by the router model. -/
inductive HttpMethod where
  | GET | HEAD | POST | PUT | DELETE | PATCH | OPTIONS
  deriving DecidableEq

/-- A response of the whole router. -/
inductive RouteOutcome where
  | healthOk : RouteOutcome
  | methodNotAllowed : RouteOutcome
  | fallbackNotFound : RouteOutcome
  | proxied : HttpOutcome × Nat × Nat → RouteOutcome
  deriving DecidableEq

/-- The wildcard capture of `/*path`: the request path without its
leading slash. -/
def wildcardCapture (path : String) : String :=
  ⟨path.data.drop 1⟩

/-- The router built in `main` (`main.rs` lines 171-175):
`.route("/health", get(health))` and `.route("/*path", any(metrics))`.
Semantic model of the axum 0.6 `Router`: path matching picks the
most specific matching route, so `/health` never reaches the wildcard; a
matched path whose method router has no handler for the request method
responds 405 Method Not Allowed; `get` also serves `HEAD`; `/*path`
captures a non-empty remainder without the leading slash, so `/` alone
falls back to 404.  `health` (`routes.rs` lines 25-27) returns unit,
which axum renders as 200 with an empty body and no side effects. -/
def routeRequest (m : HttpMethod) (path : String) (env : RequestEnv) :
    RouteOutcome :=
  if path = "/health" then
    if m = HttpMethod.GET ∨ m = HttpMethod.HEAD then .healthOk
    else .methodNotAllowed
  else if path = "/" then .fallbackNotFound
  else .proxied (metricsHandler (wildcardCapture path) env)

/-! ## Sample data used by witnesses and counterexamples -/

/-- An authorizer state holding a cached token valid until instant 10. -/
def sampleCachedState : OAuthClientCredentialsState :=
  { client_id := "id", client_secret := "secret",
    auth_url := "https://issuer/auth", token_url := "https://issuer/token",
    audience := none, header_name := "Authorization",
    header_value := "Bearer {}",
    token := some { token := "tok", expires_at := 10 } }

/-- An authorizer state with no cached token. -/
def sampleEmptyState : OAuthClientCredentialsState :=
  { sampleCachedState with token := none }

/-- An authorizer state whose configured header name contains a space and
is therefore not valid HTTP header syntax. -/
def sampleBadNameState : OAuthClientCredentialsState :=
  { sampleCachedState with header_name := "bad name" }

/-- A request environment where everything succeeds up to reading the
upstream response body, which fails. -/
def envBodyReadFails : RequestEnv :=
  { buildOk := true, authOutcome := .ok (),
    sendOutcome := .ok (200, .error { msg := "connection reset" }) }

/-- A request environment where building the outbound request fails. -/
def envBuildFails : RequestEnv :=
  { buildOk := false, authOutcome := .ok (),
    sendOutcome := .ok (200, .ok "body") }

/-! ## Claims -/

/-- **C1.** When a cached token exists and the current time is strictly
earlier than its expiry, `token()` returns the cached token, leaves the
state unchanged and performs no issuance call; in every other state it
performs exactly one issuance call and, on success, replaces the cached
token wholesale with the newly issued one. -/
theorem C1_token_cache_policy (s : OAuthClientCredentialsState) (now : Int)
    (issued : Outcome AnyhowError CachedToken) :
    (∀ c, s.token = some c → now < c.expires_at →
      tokenStep s now issued = (.ok c.token, s, 0)) ∧
    ((∀ c, s.token = some c → c.expires_at ≤ now) →
      (tokenStep s now issued).2.2 = 1 ∧
      ∀ t, issued = .ok t →
        tokenStep s now issued = (.ok t.token, { s with token := some t }, 1)) := by
  constructor
  · intro c hc hlt
    unfold tokenStep
    rw [hc]
    simp [hlt]
  · intro h
    have hmiss : tokenStep s now issued = issueAndCache s issued := by
      unfold tokenStep
      cases hs : s.token with
      | none => rfl
      | some c => simp [not_lt.mpr (h c hs)]
    rw [hmiss]
    cases issued with
    | panic => exact ⟨rfl, fun t ht => by cases ht⟩
    | error e => exact ⟨rfl, fun t ht => by cases ht⟩
    | ok t0 => exact ⟨rfl, fun t ht => by injection ht with h1; subst h1; rfl⟩

/-- Witness for C1 at a concrete state: a token cached until instant 10
is served unchanged at instant 5 with no issuance call. -/
theorem C1_token_cache_policy_witness :
    tokenStep sampleCachedState 5 (.error { msg := "endpoint down" }) =
      (.ok "tok", sampleCachedState, 0) :=
  (C1_token_cache_policy sampleCachedState 5 (.error { msg := "endpoint down" })).1
    { token := "tok", expires_at := 10 } rfl (by decide)

/-- **C2.** The claim says the issuance request carries the `audience`
extra parameter iff an audience is configured and that the exchange still
proceeds when none is configured.  In the code the guard
`Some(self.audience.clone()) != None` is always true, so with no audience
configured `generate_token` panics on `self.audience.clone().unwrap()`
instead of performing the exchange; with an audience configured the
parameter is attached as claimed. -/
theorem C2_missing_audience_panics :
    generate_token_audience_param none = .panic ∧
    generate_token_audience_param (some "aud") = .ok [("audience", "aud")] :=
  ⟨rfl, rfl⟩

/-- **C6.** When the token-issuance exchange fails while the cache is
absent or expired, `token()` returns the issuance error and the state —
including any previously cached token — is left exactly as it was. -/
theorem C6_issuance_failure_keeps_state (s : OAuthClientCredentialsState)
    (now : Int) (e : AnyhowError)
    (h : ∀ c, s.token = some c → c.expires_at ≤ now) :
    tokenStep s now (.error e) = (.error e, s, 1) := by
  unfold tokenStep
  cases hs : s.token with
  | none => rfl
  | some c => simp [not_lt.mpr (h c hs), issueAndCache]

/-- Witness for C6 at a concrete state with no cached token. -/
theorem C6_issuance_failure_keeps_state_witness :
    tokenStep sampleEmptyState 0 (.error { msg := "endpoint down" }) =
      (.error { msg := "endpoint down" }, sampleEmptyState, 1) :=
  C6_issuance_failure_keeps_state sampleEmptyState 0 { msg := "endpoint down" }
    (fun c hc => by simp [sampleEmptyState, sampleCachedState] at hc)

/-- **C4, counterexample.** The claim says an invalid configured header
name yields a per-request authorization error and no crash; in the code
`HeaderName::from_bytes(..).unwrap()` panics on the invalid name
`"bad name"` even though a valid token is available. -/
theorem C4_counterexample :
    (authorize_request_oauth [] sampleBadNameState 0
      (.ok { token := "abc", expires_at := 10 })).1 = .panic := by decide

/-- **C4, amended.** After the token is obtained, an invalid substituted
header value makes `authorize(request)` return a per-request
authorization error, but an invalid configured header name makes it
panic (crash) rather than return an error. -/
theorem C4_header_encoding (req : List (String × String))
    (s : OAuthClientCredentialsState) (now : Int)
    (issued : Outcome AnyhowError CachedToken) (tok : String)
    (htok : (tokenStep s now issued).1 = .ok tok) :
    (isValidHeaderName s.header_name = false →
      (authorize_request_oauth req s now issued).1 = .panic) ∧
    (isValidHeaderName s.header_name = true →
      isValidHeaderValue (renderHeaderValue s.header_value tok) = false →
      (authorize_request_oauth req s now issued).1 =
        .error { msg := "InvalidHeaderValue" }) := by
  have hsplit : tokenStep s now issued =
      (Outcome.ok tok, (tokenStep s now issued).2.1,
        (tokenStep s now issued).2.2) := by
    rw [← htok]
  constructor
  · intro hn
    unfold authorize_request_oauth
    rw [hsplit]
    simp [hn]
  · intro hn hv
    unfold authorize_request_oauth
    rw [hsplit]
    simp [hn, hv]

/-- Witness for C4 (amended) at a concrete state whose rendered header
value contains a newline after substitution. -/
theorem C4_header_encoding_witness :
    (authorize_request_oauth []
      { sampleCachedState with header_value := "Bearer\n{}" } 5
      (.error { msg := "endpoint down" })).1 =
      .error { msg := "InvalidHeaderValue" } :=
  (C4_header_encoding [] { sampleCachedState with header_value := "Bearer\n{}" }
    5 (.error { msg := "endpoint down" }) "tok" (by decide)).2 (by decide) (by decide)

/-- **C7.** A successful OAuth `authorize(request)` sets the configured
header name (in its lowercase normal form) to the header-value template
with the placeholder replaced by the token — for template `"Bearer {}"`
and token `"abc"` the value is exactly `"Bearer abc"` — and the insert
overwrites any existing header of that name, so exactly one instance of
the header name survives. -/
theorem C7_header_substitution (req : List (String × String))
    (s : OAuthClientCredentialsState) (now : Int)
    (issued : Outcome AnyhowError CachedToken) (tok : String)
    (htok : (tokenStep s now issued).1 = .ok tok)
    (hn : isValidHeaderName s.header_name = true)
    (hv : isValidHeaderValue (renderHeaderValue s.header_value tok) = true) :
    (authorize_request_oauth req s now issued).1 =
      .ok (headerInsert req (lowerName s.header_name)
        (renderHeaderValue s.header_value tok)) ∧
    renderHeaderValue "Bearer {}" "abc" = "Bearer abc" ∧
    (headerInsert req (lowerName s.header_name)
        (renderHeaderValue s.header_value tok)).countP
      (fun p => p.1 == lowerName s.header_name) = 1 := by
  have hsplit : tokenStep s now issued =
      (Outcome.ok tok, (tokenStep s now issued).2.1,
        (tokenStep s now issued).2.2) := by
    rw [← htok]
  refine ⟨?_, rfl, ?_⟩
  · unfold authorize_request_oauth
    rw [hsplit]
    simp [hn, hv]
  · have hzero : (req.filter
        (fun p => p.1 ≠ lowerName s.header_name)).countP
        (fun p => p.1 == lowerName s.header_name) = 0 := by
      rw [List.countP_eq_zero]
      intro a ha
      rw [List.mem_filter] at ha
      simpa using ha.2
    unfold headerInsert
    rw [List.countP_cons, hzero]
    simp

/-- Witness for C7: a pre-existing `authorization` header is overwritten
with the rendered value, never duplicated. -/
theorem C7_header_substitution_witness :
    (authorize_request_oauth [("authorization", "Bearer old"), ("accept", "text")]
      sampleCachedState 5 (.error { msg := "endpoint down" })).1 =
      .ok [("authorization", "Bearer tok"), ("accept", "text")] := by
  have h := C7_header_substitution
    [("authorization", "Bearer old"), ("accept", "text")] sampleCachedState 5
    (.error { msg := "endpoint down" }) "tok" (by decide) (by decide) (by decide)
  rw [h.1]
  decide

/-- Splitting a character list never produces an empty list of
segments. -/
lemma splitChar_ne_nil (sep : Char) (l : List Char) :
    splitChar sep l ≠ [] := by
  cases l with
  | nil => simp [splitChar]
  | cons c rest =>
    simp only [splitChar]
    split
    · simp
    · split <;> simp

/-- Rust's `split` always yields at least one segment, so the
`parts.len() < 1` check in `routes.rs` line 50 never fires. -/
lemma rustSplit_length_pos (s : String) (sep : Char) :
    1 ≤ (rustSplit s sep).length := by
  unfold rustSplit
  rw [List.length_map]
  exact List.length_pos.mpr (splitChar_ne_nil sep s.data)

/-- **C3, counterexample.** The claim says every per-request failure,
including an upstream response-body read failure, is converted to an HTTP
status; in the code a body-read failure hits
`response.bytes().await.unwrap()` and panics instead. -/
theorem C3_counterexample :
    (metricsHandler "metrics" envBodyReadFails).1 = HttpOutcome.panicked := by
  decide

/-- **C3, amended.** On a routed request, an outbound-request build
failure, an authorization error (token-issuance failure or invalid
substituted header value) and an upstream send failure are each converted
to HTTP status 500 at the handler boundary; but a panic inside
authorization (invalid configured header name) propagates, and an
upstream response-body read failure panics rather than producing a
status. -/
theorem C3_error_conversion (path : String) (env : RequestEnv)
    (hroute : (rustSplit path '/').headD "" = "metrics") :
    (env.buildOk = false → metricsHandler path env = (.status 500, 0, 0)) ∧
    (∀ e, env.buildOk = true → env.authOutcome = .error e →
      metricsHandler path env = (.status 500, 1, 0)) ∧
    (∀ e, env.buildOk = true → env.authOutcome = .ok () →
      env.sendOutcome = .error e →
      metricsHandler path env = (.status 500, 1, 1)) ∧
    (env.buildOk = true → env.authOutcome = .panic →
      (metricsHandler path env).1 = .panicked) ∧
    (∀ st e, env.buildOk = true → env.authOutcome = .ok () →
      env.sendOutcome = .ok (st, .error e) →
      (metricsHandler path env).1 = .panicked) := by
  have hic : ¬((rustSplit path '/').length < 1 ∨
      (rustSplit path '/').headD "" ≠ "metrics") := by
    push_neg
    exact ⟨rustSplit_length_pos path '/', hroute⟩
  have hr : metricsHandler path env =
      (if env.buildOk = false then (.status 500, 0, 0)
       else
         match env.authOutcome with
         | .panic => (.panicked, 1, 0)
         | .error _ => (.status 500, 1, 0)
         | .ok _ =>
           match env.sendOutcome with
           | .error _ => (.status 500, 1, 1)
           | .ok (_, .error _) => (.panicked, 1, 1)
           | .ok (st, .ok body) => (.response st body, 1, 1)) := by
    simp only [metricsHandler]
    rw [if_neg hic]
  refine ⟨?_, ?_, ?_, ?_, ?_⟩
  · intro hb
    rw [hr, if_pos hb]
  · intro e hb hao
    rw [hr, if_neg (by simp [hb]), hao]
  · intro e hb hao hso
    rw [hr, if_neg (by simp [hb]), hao, hso]
  · intro hb hao
    rw [hr, if_neg (by simp [hb]), hao]
  · intro st e hb hao hso
    rw [hr, if_neg (by simp [hb]), hao, hso]

/-- Witness for C3 (amended): a concrete request whose outbound build
fails is answered with status 500 after zero authorizations and zero
upstream sends. -/
theorem C3_error_conversion_witness :
    metricsHandler "metrics" envBuildFails = (.status 500, 0, 0) :=
  (C3_error_conversion "metrics" envBuildFails (by decide)).1 rfl

/-- **C8.** A request whose first path segment is not the literal
`metrics` is answered 404 by the handler with no authorization call, no
upstream send, and no lock acquisition (its event trace is empty). -/
theorem C8_route_gating (path : String) (env : RequestEnv)
    (h : (rustSplit path '/').headD "" ≠ "metrics") :
    metricsHandler path env = (.status 404, 0, 0) ∧
    metricsEvents path env = [] := by
  have hcond : (rustSplit path '/').length < 1 ∨
      (rustSplit path '/').headD "" ≠ "metrics" := Or.inr h
  constructor
  · simp only [metricsHandler]
    rw [if_pos hcond]
  · simp only [metricsEvents]
    rw [if_pos hcond]

/-- Witness for C8: a request to `other` is answered 404 and its event
trace is empty. -/
theorem C8_route_gating_witness :
    metricsHandler "other" envBodyReadFails = (.status 404, 0, 0) ∧
    metricsEvents "other" envBodyReadFails = [] :=
  C8_route_gating "other" envBodyReadFails (by decide)

/-- Startup arguments configuring both the full OAuth credential set and
an inline TLS certificate and key. -/
def argsOauthAndTls : Args :=
  { client_id := some "id", client_secret := some "secret",
    auth_url := some "https://issuer/auth",
    token_url := some "https://issuer/token", audience := none,
    header_name := "Authorization", header_value := "Bearer {}",
    cert := some "CERT PEM", cert_file := none, key := some "KEY PEM",
    key_file := none }

/-- Startup arguments with no credential option set. -/
def argsNoCredentials : Args :=
  { client_id := none, client_secret := none, auth_url := none,
    token_url := none, audience := none, header_name := "Authorization",
    header_value := "Bearer {}", cert := none, cert_file := none,
    key := none, key_file := none }

/-- **C5, counterexample.** The claim says a combination satisfying more
than one credential shape is a fatal configuration error; with the full
OAuth set and cert+key material both present, `determine_auth` silently
constructs the OAuth mechanism instead of aborting. -/
theorem C5_counterexample :
    oauthArgs argsOauthAndTls = true ∧ tlsArgs argsOauthAndTls = true ∧
    determine_auth argsOauthAndTls =
      AuthChoice.oauth
        { client_id := "id", client_secret := "secret",
          auth_url := "https://issuer/auth",
          token_url := "https://issuer/token", audience := none,
          header_name := "Authorization", header_value := "Bearer {}" } := by
  decide

set_option maxHeartbeats 3200000 in
/-- **C5, amended.** `determine_auth` tries its credential shapes in
source order — no options at all, then the full OAuth set, then inline
cert+key, then cert-file+key-file — constructs the mechanism of the first
shape that matches (even if later shapes also match), and panics at
startup exactly when no shape matches. -/
theorem C5_first_matching_arm (a : Args) :
    (determine_auth a = .panicked ↔
      (noCredentialArgs a = false ∧ oauthArgs a = false ∧
        tlsArgs a = false ∧ tlsFileArgs a = false)) ∧
    (noCredentialArgs a = true → determine_auth a = .mechNone) ∧
    (noCredentialArgs a = false → oauthArgs a = true →
      ∃ o, determine_auth a = .oauth o) ∧
    (noCredentialArgs a = false → oauthArgs a = false → tlsArgs a = true →
      ∃ c k, determine_auth a = .tls c k) ∧
    (noCredentialArgs a = false → oauthArgs a = false → tlsArgs a = false →
      tlsFileArgs a = true → ∃ cf kf, determine_auth a = .tlsFiles cf kf) := by
  obtain ⟨cid, csec, au, tu, aud, hn, hv, c, cf, k, kf⟩ := a
  cases cid <;> cases csec <;> cases au <;> cases tu <;> cases aud <;>
    cases c <;> cases cf <;> cases k <;> cases kf <;>
    simp [determine_auth, noCredentialArgs, oauthArgs, tlsArgs, tlsFileArgs]

/-- Witness for C5 (amended): with no credential option set the chosen
mechanism is `None`. -/
theorem C5_first_matching_arm_witness :
    determine_auth argsNoCredentials = AuthChoice.mechNone :=
  (C5_first_matching_arm argsNoCredentials).2.1 (by decide)

/-- The event trace of a `metrics` handler call takes one of four
shapes, depending on how far the request proceeds. -/
lemma metricsEvents_cases (path : String) (env : RequestEnv) :
    metricsEvents path env = [] ∨
    metricsEvents path env = [.lockAcquire, .authorize] ∨
    metricsEvents path env = [.lockAcquire, .authorize, .lockRelease] ∨
    metricsEvents path env =
      [.lockAcquire, .authorize, .lockRelease, .upstreamSend] := by
  simp only [metricsEvents]
  split
  · exact Or.inl rfl
  · split
    · exact Or.inl rfl
    · split
      · exact Or.inr (Or.inl rfl)
      · exact Or.inr (Or.inr (Or.inl rfl))
      · exact Or.inr (Or.inr (Or.inr rfl))

/-- Once a valid token is cached, every serialized authorization running
before its expiry succeeds from the cache: no further issuance calls and
no state change. -/
lemma runAuthorizations_cached (s : OAuthClientCredentialsState)
    (t : CachedToken) (times : List Int)
    (hs : s.token = some t)
    (hn : isValidHeaderName s.header_name = true)
    (hv : isValidHeaderValue (renderHeaderValue s.header_value t.token) = true)
    (ht : ∀ x ∈ times, x < t.expires_at) :
    runAuthorizations s times (.ok t) =
      (times.map (fun _ => Outcome.ok (headerInsert []
        (lowerName s.header_name) (renderHeaderValue s.header_value t.token))),
       s, 0) := by
  induction times with
  | nil => rfl
  | cons now rest ih =>
    have hnow : t.expires_at > now := ht now (by simp)
    have hstep : authorize_request_oauth [] s now (.ok t) =
        (.ok (headerInsert [] (lowerName s.header_name)
          (renderHeaderValue s.header_value t.token)), s, 0) := by
      unfold authorize_request_oauth tokenStep
      rw [hs]
      simp [hnow, hn, hv]
    simp [runAuthorizations, hstep, ih (fun x hx => ht x (by simp [hx]))]

/-- **C9.** The authorization step runs entirely under the single
exclusive lock, which is released before the upstream send begins (in
every handler trace any `upstreamSend` is strictly after `lockRelease`);
consequently the critical sections of concurrent requests execute one
after another, and N serialized requests arriving with no cached token
and a successful issuance produce exactly 1 issuance call and N
successful authorizations. -/
theorem C9_serialized_authorization (s : OAuthClientCredentialsState)
    (t : CachedToken) (times : List Int)
    (h0 : s.token = none) (hne : times ≠ [])
    (hn : isValidHeaderName s.header_name = true)
    (hv : isValidHeaderValue (renderHeaderValue s.header_value t.token) = true)
    (ht : ∀ x ∈ times, x < t.expires_at) :
    (∀ path env, HandlerEvent.upstreamSend ∈ metricsEvents path env →
      (metricsEvents path env).indexOf HandlerEvent.lockRelease <
        (metricsEvents path env).indexOf HandlerEvent.upstreamSend) ∧
    (runAuthorizations s times (.ok t)).2.2 = 1 ∧
    (∀ r ∈ (runAuthorizations s times (.ok t)).1,
      r = .ok (headerInsert [] (lowerName s.header_name)
        (renderHeaderValue s.header_value t.token))) := by
  refine ⟨?_, ?_⟩
  · intro path env hmem
    rcases metricsEvents_cases path env with h | h | h | h <;>
      rw [h] at hmem ⊢ <;> revert hmem <;> decide
  · cases times with
    | nil => exact absurd rfl hne
    | cons now rest =>
      have hstep : authorize_request_oauth [] s now (.ok t) =
          (.ok (headerInsert [] (lowerName s.header_name)
            (renderHeaderValue s.header_value t.token)),
           { s with token := some t }, 1) := by
        unfold authorize_request_oauth tokenStep
        rw [h0]
        simp [issueAndCache, hn, hv]
      have hrest := runAuthorizations_cached { s with token := some t } t rest
        rfl hn hv (fun x hx => ht x (by simp [hx]))
      constructor
      · simp [runAuthorizations, hstep, hrest]
      · intro r hr
        simp only [runAuthorizations, hstep, hrest] at hr
        rcases List.mem_cons.mp hr with h1 | h1
        · exact h1
        · rcases List.mem_map.mp h1 with ⟨x, _, hx⟩
          exact hx.symm

/-- Witness for C9: three serialized requests at instants 0, 1 and 2
against an empty cache trigger exactly one issuance call. -/
theorem C9_serialized_authorization_witness :
    (runAuthorizations sampleEmptyState [0, 1, 2]
      (.ok { token := "tok", expires_at := 10 })).2.2 = 1 :=
  (C9_serialized_authorization sampleEmptyState
    { token := "tok", expires_at := 10 } [0, 1, 2] rfl (by decide) (by decide)
    (by decide) (by decide)).2.1

/-- **C10, counterexample.** The claim says a non-GET request to
`/health` falls through to the wildcard proxy route and is answered 404;
in axum the exact `/health` route matches first and its method router
answers 405 Method Not Allowed. -/
theorem C10_counterexample :
    routeRequest HttpMethod.POST "/health" envBodyReadFails =
      RouteOutcome.methodNotAllowed := by
  decide

/-- **C10, amended.** GET (and, through axum's `get`, HEAD) requests to
`/health` are served by the health handler with a 200 empty-body
response and no side effects; requests to `/health` with any other
method are answered 405 Method Not Allowed by the matched route's method
router; in no case does a `/health` request reach the proxy handler, the
auth mechanism or the upstream. -/
theorem C10_health_method_routing (m : HttpMethod) (env : RequestEnv) :
    routeRequest HttpMethod.GET "/health" env = RouteOutcome.healthOk ∧
    routeRequest HttpMethod.HEAD "/health" env = RouteOutcome.healthOk ∧
    (m ≠ HttpMethod.GET → m ≠ HttpMethod.HEAD →
      routeRequest m "/health" env = RouteOutcome.methodNotAllowed) ∧
    (∀ r, routeRequest m "/health" env ≠ RouteOutcome.proxied r) := by
  refine ⟨by simp [routeRequest], by simp [routeRequest], ?_, ?_⟩
  · intro h1 h2
    simp [routeRequest, h1, h2]
  · intro r
    by_cases h : m = HttpMethod.GET ∨ m = HttpMethod.HEAD <;>
      simp [routeRequest, h]

/-- Witness for C10 (amended): a PUT to `/health` is answered 405. -/
theorem C10_health_method_routing_witness :
    routeRequest HttpMethod.PUT "/health" envBodyReadFails =
      RouteOutcome.methodNotAllowed :=
  (C10_health_method_routing HttpMethod.PUT envBodyReadFails).2.2.1
    (by decide) (by decide)

end Proxytheus
